import Mathlib

/-!
Shallow embedding of the chemist-mgs pharmacy point-of-sale and inventory
application.

Embedded here, from the repository sources:
- the `medicines`, `sales`, `sale_items`, `products` and `admin_settings`
  tables (supabase/migrations/*.sql), with the `UNIQUE` constraint on
  `sales.sale_number` and the `CHECK (quantity > 0)` on `sale_items`;
- the SQL functions `generate_sale_number`, `set_sale_number`
  (before-insert trigger on `sales`) and `check_low_stock_and_alert`
  (after insert-or-update-of-quantity trigger on `medicines`);
- the client-side operations `addToCart`, `calculateTotal`, `completeSale`
  (src/components/POSSystem.tsx) and `handleSyncConfirm`
  (src/components/ProductForm.tsx).

Modelling choices: money amounts are integer numbers of cents — the
`DECIMAL(10, 2)` columns are fixed-point with two fractional digits, so
the additions and integer-scalar multiplications the code performs on
them are exact integer arithmetic on cents. Quantities are integers
(the `medicines.quantity` column carries no nonnegativity constraint, so
a decrement below zero is representable, exactly as in the database).
Fallible persistence steps are modelled with explicit failure flags and
`Option` results; `DATE(created_at)`/`TO_CHAR(CURRENT_DATE, 'YYYYMMDD')`
is modelled by a `day : String` stamp passed to each insert.
-/

namespace ChemistMgs

/-- A row of the `medicines` (inventory) table: id, name, cost, quantity. -/
structure Medicine where
  id : Nat
  name : String
  cost : Int
  quantity : Int
deriving DecidableEq, Repr

/-- An in-memory cart line of POSSystem.tsx (`CartItem` interface). -/
structure CartItem where
  medicineId : Nat
  medicineName : String
  quantity : Int
  unitPrice : Int
  totalPrice : Int
deriving DecidableEq, Repr

/-- A row of the `sales` table; `day` models `DATE(created_at)`. -/
structure Sale where
  id : Nat
  sale_number : String
  cashier_id : Nat
  total_amount : Int
  payment_method : String
  day : String
deriving DecidableEq, Repr

/-- A row of the `sale_items` table. -/
structure SaleItem where
  sale_id : Nat
  medicine_id : Nat
  medicine_name : String
  quantity : Int
  unit_price : Int
  total_price : Int
deriving DecidableEq, Repr

/-- A row of the `products` table (an intake batch recorded by
ProductForm.tsx). -/
structure IntakeBatch where
  id : Nat
  supplier_id : Nat
  product_name : String
  batch_number : String
  quantity : Int
  cost_per_unit : Int
deriving DecidableEq, Repr

/-- The `admin_settings` row read by `check_low_stock_and_alert`:
`admin_phone` is `NOT NULL`, `low_stock_threshold` is nullable with
`DEFAULT 10`. -/
structure AdminSettings where
  admin_phone : String
  low_stock_threshold : Option Int
deriving DecidableEq, Repr

/-- The persistent database state. -/
structure DB where
  medicines : List Medicine
  sales : List Sale
  sale_items : List SaleItem
  products : List IntakeBatch
deriving DecidableEq, Repr

/-- POSSystem.tsx `fetchMedicines`: loads the medicines snapshot shown in
the UI, keeping only rows with `quantity > 0` (`.gt('quantity', 0)`). -/
def fetchMedicines (meds : List Medicine) : List Medicine :=
  meds.filter (fun m => 0 < m.quantity)

/-- Outcome of POSSystem.tsx `addToCart`: the new cart, or one of the
rejection paths (invalid quantity/price toast, silent return on a missing
medicine, or the insufficient-stock toast that reports the available
quantity). -/
inductive AddToCartResult where
  | ok (cart : List CartItem)
  | invalidInput
  | medicineNotFound
  | insufficientStock (available : Int)
deriving DecidableEq, Repr

/-- POSSystem.tsx `addToCart`: validates quantity and price, rejects a
request exceeding the snapshot stock, then either merges into the
existing cart line for the same medicine (keeping its `unitPrice` but
recomputing `totalPrice` with the newly entered price) or appends a fresh
line. -/
def addToCart (medicines : List Medicine) (cart : List CartItem)
    (selectedMedicine : Nat) (qty : Int) (price : Int) : AddToCartResult :=
  if qty ≤ 0 ∨ price ≤ 0 then .invalidInput
  else
    match medicines.find? (fun m => m.id == selectedMedicine) with
    | none => .medicineNotFound
    | some medicine =>
      if medicine.quantity < qty then .insufficientStock medicine.quantity
      else if (cart.find? (fun item => item.medicineId == selectedMedicine)).isSome then
        .ok (cart.map (fun item =>
          if item.medicineId == selectedMedicine then
            { item with
                quantity := item.quantity + qty,
                totalPrice := (item.quantity + qty) * price }
          else item))
      else
        .ok (cart ++ [{ medicineId := selectedMedicine, medicineName := medicine.name,
                        quantity := qty, unitPrice := price,
                        totalPrice := qty * price }])

/-- POSSystem.tsx `calculateTotal`: reduce over the cart summing
`totalPrice`. -/
def calculateTotal (cart : List CartItem) : Int :=
  cart.foldl (fun sum item => sum + item.totalPrice) 0

/-- Postgres `LPAD(s, len, pad)`: left-pad `s` to `len` characters,
truncating `s` on the right when it is longer than `len`. -/
def lpad (s : String) (len : Nat) (pad : Char) : String :=
  if len ≤ s.length then String.mk (s.toList.take len)
  else String.mk (List.replicate (len - s.length) pad) ++ s

/-- SQL `generate_sale_number()`: count the sales created today and build
`'SALE-' || TO_CHAR(CURRENT_DATE, 'YYYYMMDD') || '-' || LPAD((count + 1)::TEXT, 4, '0')`.
`Nat.repr` models the `::TEXT` decimal cast; `today` is the formatted
current date. -/
def generate_sale_number (sales : List Sale) (today : String) : String :=
  let count := (sales.filter (fun s => s.day == today)).length
  "SALE-" ++ today ++ "-" ++ lpad (Nat.repr (count + 1)) 4 '0'

/-- SQL `set_sale_number()` before-insert trigger: when the incoming
`sale_number` is NULL (`none`) or the empty string, replace it with
`generate_sale_number()`. -/
def set_sale_number (sales : List Sale) (today : String)
    (requested : Option String) : String :=
  match requested with
  | none => generate_sale_number sales today
  | some s => if s = "" then generate_sale_number sales today else s

/-- Insert one row into `sales`: the before-insert trigger fills the sale
number, then the `UNIQUE` constraint on `sale_number` rejects the row if
the number is already taken (`none` = the insert fails, nothing is
stored). -/
def insertSaleRow (sales : List Sale) (today : String) (id cashier : Nat)
    (total : Int) (pm : String) (requested : Option String) :
    Option (Sale × List Sale) :=
  let num := set_sale_number sales today requested
  if sales.any (fun s => s.sale_number == num) then none
  else
    let sale : Sale :=
      { id := id, sale_number := num, cashier_id := cashier,
        total_amount := total, payment_method := pm, day := today }
    some (sale, sales ++ [sale])

/-- One attempted `sales` insert, as fired by a checkout. A concurrent
checkout that generated its number from a stale snapshot is modelled by
an arbitrary precomputed `requested` string; `none` or `some ""` lets the
trigger compute the number from the current table. -/
structure SaleAttempt where
  today : String
  id : Nat
  cashier : Nat
  total : Int
  pm : String
  requested : Option String
deriving DecidableEq, Repr

/-- Run a sequence of insert attempts against the `sales` table; an
attempt rejected by the `UNIQUE` constraint leaves the table unchanged. -/
def runAttempts (sales : List Sale) : List SaleAttempt → List Sale
  | [] => sales
  | a :: rest =>
    match insertSaleRow sales a.today a.id a.cashier a.total a.pm a.requested with
    | some (_, sales') => runAttempts sales' rest
    | none => runAttempts sales rest

/-- The acting role passed to `POSSystem`. -/
inductive Role where
  | admin
  | cashier
deriving DecidableEq, Repr

/-- Outcome of POSSystem.tsx `completeSale`: success with the persisted
sale, the empty-cart rejection, or a caught persistence error. -/
inductive CheckoutResult where
  | completed (sale : Sale)
  | emptyCart
  | failed
deriving DecidableEq, Repr

/-- Modelled from the spec: the stock-reducing database trigger that the
POSSystem.tsx comment relies on for the cashier role ("No manual stock
update if role = cashier, DB trigger handles it") is not among the
migrations in the repository. Per spec section 4.1 step 5 it decrements
each referenced inventory item's quantity by the inserted line's
quantity, as part of the `sale_items` insert. -/
def reduce_stock_on_sale_items (meds : List Medicine)
    (items : List SaleItem) : List Medicine :=
  items.foldl
    (fun acc it =>
      acc.map (fun m =>
        if m.id == it.medicine_id then
          { m with quantity := m.quantity - it.quantity }
        else m))
    meds

/-- POSSystem.tsx `completeSale` step 3, admin branch: for each cart item
found in the React `medicines` snapshot, set the row's quantity to the
snapshot quantity minus the cart quantity; a cart item missing from the
snapshot is silently skipped. -/
def adminStockUpdate (snapshot : List Medicine) (meds : List Medicine)
    (cart : List CartItem) : List Medicine :=
  cart.foldl
    (fun acc item =>
      match snapshot.find? (fun m => m.id == item.medicineId) with
      | some medicine =>
        acc.map (fun m =>
          if m.id == item.medicineId then
            { m with quantity := medicine.quantity - item.quantity }
          else m)
      | none => acc)
    meds

/-- The `sale_items` rows built by POSSystem.tsx `completeSale` step 2
from the cart. -/
def saleItemsOfCart (saleId : Nat) (cart : List CartItem) : List SaleItem :=
  cart.map (fun item =>
    { sale_id := saleId, medicine_id := item.medicineId,
      medicine_name := item.medicineName, quantity := item.quantity,
      unit_price := item.unitPrice, total_price := item.totalPrice })

/-- POSSystem.tsx `completeSale`: reject an empty cart; insert the sale
(with `sale_number` sent as `''`, so the trigger generates it); insert
the line items (the `CHECK (quantity > 0)` constraint or an injected
failure aborts here, after the sale row is already stored); then update
stock, manually from the snapshot for the admin role, via the
`sale_items` trigger for the cashier role. `saleInsertFails` and
`itemsInsertFails` model the two fallible network writes; a caught error
leaves whatever was already persisted in place (there is no transaction
in the source). -/
def completeSale (role : Role) (db : DB) (snapshot : List Medicine)
    (cart : List CartItem) (today : String) (newSaleId cashier : Nat)
    (pm : String) (saleInsertFails itemsInsertFails : Bool) :
    CheckoutResult × DB :=
  if cart.isEmpty then (.emptyCart, db)
  else if saleInsertFails then (.failed, db)
  else
    match insertSaleRow db.sales today newSaleId cashier (calculateTotal cart) pm (some "") with
    | none => (.failed, db)
    | some (sale, sales') =>
      let db1 : DB := { db with sales := sales' }
      let items := saleItemsOfCart sale.id cart
      if itemsInsertFails ∨ items.any (fun it => it.quantity ≤ 0) then
        (.failed, db1)
      else
        let db2 : DB := { db1 with sale_items := db1.sale_items ++ items }
        let meds' :=
          match role with
          | .cashier => reduce_stock_on_sale_items db2.medicines items
          | .admin => adminStockUpdate snapshot db2.medicines cart
        (.completed sale, { db2 with medicines := meds' })

/-- The write that fires the `trigger_low_stock_alert` trigger on
`medicines`: an insert of a row with the new quantity, or an update
carrying the old and the new quantity. -/
inductive StockWrite where
  | insert (newq : Int)
  | update (oldq newq : Int)
deriving DecidableEq, Repr

/-- The threshold used by the trigger:
`COALESCE(low_stock_threshold, 10)`. -/
def effectiveThreshold (st : AdminSettings) : Int :=
  st.low_stock_threshold.getD 10

/-- SQL `check_low_stock_and_alert()`: reads the (first) `admin_settings`
row; dispatches the low-stock notification exactly when an admin phone is
configured, the new quantity is strictly below the threshold, and the
operation is an insert or the old quantity was not already below the
threshold. Returns whether the notification HTTP call is performed. -/
def check_low_stock_and_alert (settings : Option AdminSettings)
    (write : StockWrite) : Bool :=
  match settings with
  | none => false
  | some st =>
    match write with
    | .insert newq => newq < effectiveThreshold st
    | .update oldq newq =>
      newq < effectiveThreshold st ∧ effectiveThreshold st ≤ oldq

/-- ProductForm.tsx `handleSyncConfirm`: look up a medicine by the exact
product name with `.single()`. PostgREST reports code `PGRST116`
whenever the result is not exactly one row — for zero and for multiple
matches alike — and the code tolerates precisely that error, leaving
`existingMedicine` null. A found row has its quantity incremented by the
sync quantity; otherwise (no row with the name, or several) a new
medicine row is inserted with the batch's name, cost per unit and the
sync quantity. Only `medicines` is written; the `products` table is
untouched. -/
def handleSyncConfirm (db : DB) (batch : IntakeBatch) (syncQuantity : Int)
    (newId : Nat) : DB :=
  let existingMedicine :=
    match db.medicines.filter (fun m => m.name == batch.product_name) with
    | [m] => some m
    | _ => none
  match existingMedicine with
  | some existing =>
    { db with
      medicines := db.medicines.map (fun m =>
        if m.id == existing.id then
          { m with quantity := existing.quantity + syncQuantity }
        else m) }
  | none =>
    { db with
      medicines := db.medicines ++
        [{ id := newId, name := batch.product_name,
           cost := batch.cost_per_unit, quantity := syncQuantity }] }

/-- Quantity of the medicine row with the given id (first match, as
`find?` models the primary-key lookup). -/
def qtyOf (meds : List Medicine) (mid : Nat) : Option Int :=
  (meds.find? (fun m => m.id == mid)).map (fun m => m.quantity)

/-- The sale-number suffix as the spec words it: the decimal value of
`n`, left-padded with zeros to 4 digits. -/
def specPad4 (n : Nat) : String :=
  String.mk (List.replicate (4 - (Nat.repr n).length) '0') ++ Nat.repr n


/-! Helper lemmas about lookups, the update maps used by the stock
mutations, and the success path of `completeSale`. -/

/-- An update map keyed on the medicine id changes `qtyOf` only at that
key, where it applies the update function to the found row. -/
theorem qtyOf_map_ite (meds : List Medicine) (mid : Nat) (f : Medicine → Int) (j : Nat) :
    qtyOf (meds.map (fun m => if m.id == mid then { m with quantity := f m } else m)) j
      = if j = mid then (meds.find? (fun m => m.id == j)).map (fun m => f m)
        else qtyOf meds j := by
  unfold qtyOf
  rw [List.find?_map]
  have hpred : ((fun m : Medicine => m.id == j) ∘
      (fun m => if m.id == mid then { m with quantity := f m } else m))
      = fun m : Medicine => m.id == j := by
    funext m
    by_cases h : m.id == mid <;> simp [Function.comp, h]
  rw [hpred]
  cases hfind : meds.find? (fun m => m.id == j) with
  | none => by_cases hj : j = mid <;> simp [hj]
  | some m =>
    have hid : m.id = j := by
      have := List.find?_some hfind
      simpa using this
    by_cases hj : j = mid
    · have hm : m.id = mid := hid.trans hj
      simp [hj, hm]
    · have hm : ¬ m.id = mid := fun hc => hj (hid.symm.trans hc)
      simp [hj, hm]

/-- Fold a per-item stock update over a list: a key not touched by any
list element keeps its quantity. -/
theorem foldl_qtyOf_not_mem {β : Type} (step : List Medicine → β → List Medicine)
    (key : β → Nat) (v : β → Option Int → Option Int)
    (hstep : ∀ acc b j, qtyOf (step acc b) j
      = if j = key b then v b (qtyOf acc j) else qtyOf acc j)
    (l : List β) (meds : List Medicine) (j : Nat)
    (h : ∀ b ∈ l, key b ≠ j) :
    qtyOf (l.foldl step meds) j = qtyOf meds j := by
  induction l generalizing meds with
  | nil => rfl
  | cons b rest ih =>
    have hb : key b ≠ j := h b (List.mem_cons_self b rest)
    have hrest : ∀ x ∈ rest, key x ≠ j := fun x hx => h x (List.mem_cons_of_mem b hx)
    calc qtyOf ((b :: rest).foldl step meds) j
        = qtyOf (rest.foldl step (step meds b)) j := rfl
      _ = qtyOf (step meds b) j := ih (step meds b) hrest
      _ = qtyOf meds j := by
            rw [hstep, if_neg (show ¬ j = key b from fun hj => hb hj.symm)]

/-- Fold a per-item stock update over a list with pairwise-distinct keys:
the element owning a key determines the final quantity at that key. -/
theorem foldl_qtyOf_mem {β : Type} (step : List Medicine → β → List Medicine)
    (key : β → Nat) (v : β → Option Int → Option Int)
    (hstep : ∀ acc b j, qtyOf (step acc b) j
      = if j = key b then v b (qtyOf acc j) else qtyOf acc j)
    (l : List β) (meds : List Medicine) (item : β)
    (hnd : (l.map key).Nodup) (hmem : item ∈ l) :
    qtyOf (l.foldl step meds) (key item) = v item (qtyOf meds (key item)) := by
  induction l generalizing meds with
  | nil => cases hmem
  | cons b rest ih =>
    rcases List.mem_cons.mp hmem with hitem | hitem
    · subst hitem
      have hnotin : ∀ x ∈ rest, key x ≠ key item := by
        intro x hx heq
        have : key item ∈ rest.map key := heq ▸ List.mem_map_of_mem key hx
        exact (List.nodup_cons.mp (by simpa using hnd)).1 this
      calc qtyOf ((item :: rest).foldl step meds) (key item)
          = qtyOf (rest.foldl step (step meds item)) (key item) := rfl
        _ = qtyOf (step meds item) (key item) :=
            foldl_qtyOf_not_mem step key v hstep rest _ _ hnotin
        _ = v item (qtyOf meds (key item)) := by rw [hstep]; simp
    · have hne : key b ≠ key item := by
        intro heq
        have : key item ∈ rest.map key := List.mem_map_of_mem key hitem
        exact (List.nodup_cons.mp (by simpa using hnd)).1 (heq ▸ this)
      have hndrest : (rest.map key).Nodup := (List.nodup_cons.mp (by simpa using hnd)).2
      calc qtyOf ((b :: rest).foldl step meds) (key item)
          = qtyOf (rest.foldl step (step meds b)) (key item) := rfl
        _ = v item (qtyOf (step meds b) (key item)) := ih _ hndrest hitem
        _ = v item (qtyOf meds (key item)) := by
              rw [hstep, if_neg (show ¬ key item = key b from fun h => hne h.symm)]

/-- One step of the admin manual stock update changes `qtyOf` only at the
cart item's medicine id, setting it to the snapshot quantity minus the
cart quantity (when the snapshot has the item). -/
theorem adminStockUpdate_qtyOf (snapshot meds : List Medicine)
    (cart : List CartItem) (item : CartItem) (med : Medicine)
    (hnd : (cart.map (fun i => i.medicineId)).Nodup) (hmem : item ∈ cart)
    (hf : snapshot.find? (fun m => m.id == item.medicineId) = some med) :
    qtyOf (adminStockUpdate snapshot meds cart) item.medicineId
      = (qtyOf meds item.medicineId).map (fun _ => med.quantity - item.quantity) := by
  have hstep : ∀ (acc : List Medicine) (b : CartItem) (j : Nat),
      qtyOf ((fun (acc : List Medicine) (item : CartItem) =>
        match snapshot.find? (fun m => m.id == item.medicineId) with
        | some medicine =>
          acc.map (fun m =>
            if m.id == item.medicineId then
              { m with quantity := medicine.quantity - item.quantity }
            else m)
        | none => acc) acc b) j
        = if j = b.medicineId then
            ((fun (b : CartItem) (o : Option Int) =>
              match snapshot.find? (fun m => m.id == b.medicineId) with
              | some medicine => o.map (fun _ => medicine.quantity - b.quantity)
              | none => o) b (qtyOf acc j))
          else qtyOf acc j := by
    intro acc b j
    cases hfb : snapshot.find? (fun m => m.id == b.medicineId) with
    | none => simp [hfb]
    | some medb =>
      simp only [hfb]
      rw [qtyOf_map_ite]
      by_cases hj : j = b.medicineId
      · subst hj
        simp [qtyOf, Option.map_map, Function.comp_def]
      · simp [hj]
  have h := foldl_qtyOf_mem
    (fun (acc : List Medicine) (item : CartItem) =>
      match snapshot.find? (fun m => m.id == item.medicineId) with
      | some medicine =>
        acc.map (fun m =>
          if m.id == item.medicineId then
            { m with quantity := medicine.quantity - item.quantity }
          else m)
      | none => acc)
    (fun i => i.medicineId)
    (fun (b : CartItem) (o : Option Int) =>
      match snapshot.find? (fun m => m.id == b.medicineId) with
      | some medicine => o.map (fun _ => medicine.quantity - b.quantity)
      | none => o)
    hstep cart meds item hnd hmem
  rw [adminStockUpdate, h]
  simp [hf]

/-- One pass of the spec-modelled stock-reduction trigger decrements
`qtyOf` at each inserted line's medicine id by the line quantity. -/
theorem reduce_stock_qtyOf (meds : List Medicine) (items : List SaleItem)
    (it : SaleItem)
    (hnd : (items.map (fun i => i.medicine_id)).Nodup) (hmem : it ∈ items) :
    qtyOf (reduce_stock_on_sale_items meds items) it.medicine_id
      = (qtyOf meds it.medicine_id).map (fun q => q - it.quantity) := by
  have hstep : ∀ (acc : List Medicine) (b : SaleItem) (j : Nat),
      qtyOf ((fun (acc : List Medicine) (it : SaleItem) =>
        acc.map (fun m =>
          if m.id == it.medicine_id then
            { m with quantity := m.quantity - it.quantity }
          else m)) acc b) j
        = if j = b.medicine_id then
            ((fun (b : SaleItem) (o : Option Int) =>
              o.map (fun q => q - b.quantity)) b (qtyOf acc j))
          else qtyOf acc j := by
    intro acc b j
    rw [qtyOf_map_ite]
    by_cases hj : j = b.medicine_id
    · subst hj
      simp [qtyOf, Option.map_map, Function.comp_def]
    · simp [hj]
  have h := foldl_qtyOf_mem
    (fun (acc : List Medicine) (it : SaleItem) =>
      acc.map (fun m =>
        if m.id == it.medicine_id then
          { m with quantity := m.quantity - it.quantity }
        else m))
    (fun i => i.medicine_id)
    (fun (b : SaleItem) (o : Option Int) => o.map (fun q => q - b.quantity))
    hstep items meds it hnd hmem
  rw [reduce_stock_on_sale_items, h]

/-- Characterization of a successful `sales` insert: the stored sale
carries the requested fields and the trigger-generated number, the table
grows by exactly that row, and no earlier row shares its number. -/
theorem insertSaleRow_spec (sales : List Sale) (today : String)
    (id cashier : Nat) (total : Int) (pm : String) (requested : Option String)
    (sale : Sale) (sales' : List Sale)
    (h : insertSaleRow sales today id cashier total pm requested = some (sale, sales')) :
    sale = { id := id, sale_number := set_sale_number sales today requested,
             cashier_id := cashier, total_amount := total,
             payment_method := pm, day := today }
      ∧ sales' = sales ++ [sale]
      ∧ ∀ s ∈ sales, s.sale_number ≠ sale.sale_number := by
  by_cases hany : sales.any (fun s => s.sale_number == set_sale_number sales today requested)
  · simp [insertSaleRow, hany] at h
  · simp only [insertSaleRow, hany, Bool.false_eq_true, if_false, Option.some.injEq,
      Prod.mk.injEq] at h
    obtain ⟨h1, h2⟩ := h
    refine ⟨h1.symm, by rw [← h2, h1], ?_⟩
    intro s hs heq
    have : sales.any (fun s => s.sale_number == set_sale_number sales today requested) = true := by
      rw [List.any_eq_true]
      refine ⟨s, hs, ?_⟩
      rw [heq, ← h1]
      simp
    exact hany this

/-- The fold in `calculateTotal` computes the sum of the cart's
`totalPrice` column. -/
theorem calculateTotal_eq_sum (cart : List CartItem) :
    calculateTotal cart = (cart.map (fun i => i.totalPrice)).sum := by
  have h : ∀ (l : List CartItem) (a : Int),
      l.foldl (fun sum item => sum + item.totalPrice) a
        = a + (l.map (fun i => i.totalPrice)).sum := by
    intro l
    induction l with
    | nil => intro a; simp
    | cons c rest ih => intro a; simp [ih, add_assoc]
  simpa [calculateTotal] using h cart 0

/-- Characterization of a checkout that completes (no injected failures):
the sale row and its line items are appended, `products` is untouched,
and stock is mutated by the role-dependent path. -/
theorem completeSale_completed
    (role : Role) (db : DB) (snapshot : List Medicine) (cart : List CartItem)
    (today : String) (sid cid : Nat) (pm : String) (sale : Sale) (db' : DB)
    (h : completeSale role db snapshot cart today sid cid pm false false
          = (.completed sale, db')) :
    sale.id = sid ∧ sale.total_amount = calculateTotal cart ∧ sale.day = today
      ∧ (∀ s ∈ db.sales, s.sale_number ≠ sale.sale_number)
      ∧ db'.sales = db.sales ++ [sale]
      ∧ db'.sale_items = db.sale_items ++ saleItemsOfCart sale.id cart
      ∧ db'.products = db.products
      ∧ (role = Role.admin →
          db'.medicines = adminStockUpdate snapshot db.medicines cart)
      ∧ (role = Role.cashier →
          db'.medicines
            = reduce_stock_on_sale_items db.medicines (saleItemsOfCart sale.id cart)) := by
  unfold completeSale at h
  cases hempty : cart.isEmpty with
  | true => rw [hempty] at h; simp at h
  | false =>
    rw [hempty] at h
    cases hins : insertSaleRow db.sales today sid cid (calculateTotal cart) pm (some "") with
    | none => rw [hins] at h; simp at h
    | some p =>
      obtain ⟨sale0, sales0⟩ := p
      rw [hins] at h
      cases hq : (saleItemsOfCart sale0.id cart).any (fun it => it.quantity ≤ 0) with
      | true => simp [hq] at h
      | false =>
        simp only [hq, Bool.false_eq_true, if_false, or_false, Bool.false_or,
          CheckoutResult.completed.injEq, Prod.mk.injEq] at h
        obtain ⟨hsale, hdb⟩ := h
        obtain ⟨hs1, hs2, hs3⟩ := insertSaleRow_spec _ _ _ _ _ _ _ _ _ hins
        subst hsale
        subst hdb
        refine ⟨by rw [hs1], by rw [hs1], by rw [hs1], hs3, ?_, rfl, rfl, ?_, ?_⟩
        · rw [hs2]
        · intro hrole
          subst hrole
          rfl
        · intro hrole
          subst hrole
          rfl

/-- Postgres `LPAD` to width 4 agrees with the spec's zero-padding
whenever the decimal numeral fits in 4 characters. -/
theorem lpad_eq_specPad4 (n : Nat) (h : (Nat.repr n).length ≤ 4) :
    lpad (Nat.repr n) 4 '0' = specPad4 n := by
  unfold lpad specPad4
  rcases lt_or_eq_of_le h with hlt | heq
  · rw [if_neg (by omega)]
  · rw [if_pos (by omega)]
    have ht : (Nat.repr n).toList.take 4 = (Nat.repr n).toList :=
      List.take_of_length_le (le_of_eq heq)
    rw [ht]
    have hz : 4 - (Nat.repr n).length = 0 := by omega
    rw [hz]
    apply String.ext
    simp [String.toList]

/-- The `UNIQUE` constraint invariant on `sales`: pairwise-distinct sale
numbers. -/
def saleNumbersDistinct (sales : List Sale) : Prop :=
  (sales.map (fun s => s.sale_number)).Nodup

/-- A successful insert into `sales` preserves pairwise-distinct sale
numbers (the `UNIQUE` constraint already rejected a duplicate). -/
theorem insertSaleRow_preserves_distinct (sales : List Sale) (today : String)
    (id cashier : Nat) (total : Int) (pm : String) (requested : Option String)
    (sale : Sale) (sales' : List Sale)
    (hd : saleNumbersDistinct sales)
    (h : insertSaleRow sales today id cashier total pm requested = some (sale, sales')) :
    saleNumbersDistinct sales' := by
  obtain ⟨_, h2, h3⟩ := insertSaleRow_spec _ _ _ _ _ _ _ _ _ h
  subst h2
  unfold saleNumbersDistinct at *
  rw [List.map_append, List.nodup_append]
  refine ⟨hd, by simp, ?_⟩
  intro x hx hy
  simp at hy
  obtain ⟨s, hs, hxs⟩ := List.mem_map.mp hx
  exact h3 s hs (by rw [hxs, hy])

/-- Any sequence of insert attempts preserves pairwise-distinct sale
numbers. -/
theorem runAttempts_preserves_distinct (attempts : List SaleAttempt) :
    ∀ sales : List Sale, saleNumbersDistinct sales →
      saleNumbersDistinct (runAttempts sales attempts) := by
  induction attempts with
  | nil => intro sales h; exact h
  | cons a rest ih =>
    intro sales h
    unfold runAttempts
    cases hins : insertSaleRow sales a.today a.id a.cashier a.total a.pm a.requested with
    | none => exact ih sales h
    | some p =>
      obtain ⟨sale, sales'⟩ := p
      exact ih sales' (insertSaleRow_preserves_distinct _ _ _ _ _ _ _ _ _ h hins)

/-! Concrete scenario data used by witnesses and counterexamples. -/

/-- A stock row with 3 units on hand. -/
def exParacetamol : Medicine :=
  { id := 1, name := "Paracetamol", cost := 1000, quantity := 3 }

/-- A database holding only that stock row. -/
def exDB : DB :=
  { medicines := [exParacetamol], sales := [], sale_items := [], products := [] }

/-- The cart after one addition of 2 units at 10.00. -/
def exCartOnce : List CartItem :=
  [{ medicineId := 1, medicineName := "Paracetamol", quantity := 2,
     unitPrice := 1000, totalPrice := 2000 }]

/-- The cart after a second addition of 2 more units at 10.00: the merged
line asks for 4 units although only 3 are in stock. -/
def exCartMerged : List CartItem :=
  [{ medicineId := 1, medicineName := "Paracetamol", quantity := 4,
     unitPrice := 1000, totalPrice := 4000 }]

/-- First checkout attempt of the simulated day. -/
def exAttemptA : SaleAttempt :=
  { today := "20250101", id := 1, cashier := 7, total := 1000,
    pm := "cash", requested := none }

/-- Second checkout attempt of the same simulated day. -/
def exAttemptB : SaleAttempt :=
  { today := "20250101", id := 2, cashier := 7, total := 500,
    pm := "cash", requested := none }

/-- The sale stored by the first attempt. -/
def exSaleA : Sale :=
  { id := 1, sale_number := "SALE-20250101-0001", cashier_id := 7,
    total_amount := 1000, payment_method := "cash", day := "20250101" }

/-- The sale stored by the second attempt. -/
def exSaleB : Sale :=
  { id := 2, sale_number := "SALE-20250101-0002", cashier_id := 7,
    total_amount := 500, payment_method := "cash", day := "20250101" }

/-- Claim C4: a sale inserted with an empty or null sale number receives
`SALE-` followed by the current date, `-`, and the 4-digit zero-padded
value of (number of sales already created that day + 1); the first sale
of a day receives suffix 0001. (Stated for daily counts below 10000, the
capacity of the 4-digit field.) -/
theorem sale_number_generated_format
    (sales : List Sale) (today : String) (requested : Option String)
    (hreq : requested = none ∨ requested = some "")
    (hcount : (sales.filter (fun s => s.day == today)).length + 1 ≤ 9999) :
    set_sale_number sales today requested
        = "SALE-" ++ today ++ "-"
            ++ specPad4 ((sales.filter (fun s => s.day == today)).length + 1)
      ∧ ((sales.filter (fun s => s.day == today)).length = 0 →
          set_sale_number sales today requested
            = "SALE-" ++ today ++ "-" ++ "0001") := by
  have hgen : generate_sale_number sales today
      = "SALE-" ++ today ++ "-"
        ++ specPad4 ((sales.filter (fun s => s.day == today)).length + 1) := by
    simp only [generate_sale_number]
    rw [lpad_eq_specPad4]
    exact Nat.repr_length _ 4 (by norm_num) (by norm_num; omega)
  have hset : set_sale_number sales today requested
      = generate_sale_number sales today := by
    rcases hreq with h | h <;> simp [set_sale_number, h]
  constructor
  · rw [hset, hgen]
  · intro h0
    rw [hset, hgen, h0]
    rfl

/-- Witness for C4: with no sales yet, the trigger assigns suffix 0001. -/
theorem sale_number_generated_format_witness :
    set_sale_number [] "20250101" (some "")
      = "SALE-" ++ "20250101" ++ "-" ++ "0001" :=
  (sale_number_generated_format [] "20250101" (some "") (Or.inr rfl)
    (by decide)).2 rfl

/-- Claim C5: any two distinct sales stored on the same day carry
distinct sale numbers, for every sequence of insert attempts — including
attempts whose number was precomputed from a stale snapshot, which models
concurrent checkouts; the `UNIQUE` constraint rejects the losing insert. -/
theorem same_day_sale_numbers_distinct
    (attempts : List SaleAttempt) (s t : Sale)
    (hs : s ∈ runAttempts [] attempts) (ht : t ∈ runAttempts [] attempts)
    (hday : s.day = t.day) (hne : s ≠ t) :
    s.sale_number ≠ t.sale_number := by
  have hd : saleNumbersDistinct (runAttempts [] attempts) :=
    runAttempts_preserves_distinct attempts [] (by simp [saleNumbersDistinct])
  intro heq
  exact hne (List.inj_on_of_nodup_map hd hs ht heq)

/-- Witness for C5: two same-day checkout attempts store sales numbered
0001 and 0002, which the theorem proves distinct. -/
theorem same_day_sale_numbers_distinct_witness :
    exSaleA.sale_number ≠ exSaleB.sale_number :=
  same_day_sale_numbers_distinct [exAttemptA, exAttemptB] exSaleA exSaleB
    (by decide) (by decide) rfl (by decide)

/-- Claim C8: the low-stock alert is edge-triggered — the trigger
dispatches the notification exactly when an admin phone is configured,
the written quantity is below the effective threshold, and the write is
an insert or an update whose old quantity was not already below the
threshold; hence a write staying below the threshold fires nothing, a
re-crossing fires again, and without settings nothing is dispatched. -/
theorem low_stock_alert_edge_triggered
    (settings : Option AdminSettings) (write : StockWrite) :
    check_low_stock_and_alert settings write = true ↔
      ∃ st, settings = some st ∧
        ((∃ newq, write = .insert newq ∧ newq < effectiveThreshold st) ∨
         (∃ oldq newq, write = .update oldq newq ∧ newq < effectiveThreshold st
            ∧ effectiveThreshold st ≤ oldq)) := by
  cases settings with
  | none => simp [check_low_stock_and_alert]
  | some st =>
    cases write with
    | insert newq => simp [check_low_stock_and_alert]
    | update oldq newq =>
      simp [check_low_stock_and_alert]
      aesop

/-- A map that preserves a predicate does not change the number of rows
matched by a filter on it. -/
theorem filter_length_map_of_preserves (meds : List Medicine)
    (p : Medicine → Bool) (g : Medicine → Medicine)
    (hg : ∀ m, p (g m) = p m) :
    ((meds.map g).filter p).length = (meds.filter p).length := by
  induction meds with
  | nil => rfl
  | cons m rest ih =>
    by_cases h : p m
    · simp only [List.map_cons, List.filter_cons, hg, h, if_pos, List.length_cons, ih]
    · simp only [List.map_cons, List.filter_cons, hg, h]
      simpa using ih

/-- The intake batch synced in the witness scenarios. -/
def exBatch : IntakeBatch :=
  { id := 9, supplier_id := 2, product_name := "Amoxicillin",
    batch_number := "B1", quantity := 100, cost_per_unit := 500 }

/-- The database after syncing 50 units of the batch into `exDB`. -/
def exDBAfterSync : DB :=
  { medicines := [exParacetamol,
      { id := 4, name := "Amoxicillin", cost := 500, quantity := 50 }],
    sales := [], sale_items := [], products := [] }

/-- Claim C9: an intake sync creates a new medicines row with the
batch's name, unit cost and the sync quantity when no row bears that
exact name, and otherwise increments the unique existing row's quantity
by the sync quantity, leaving exactly one row with that name either way
(stated for names not already duplicated in inventory: with two or more
same-name rows, `.single()` reports the tolerated `PGRST116` and the
code falls into the insert branch, outside the claim's two cases). -/
theorem sync_creates_or_increments
    (db : DB) (batch : IntakeBatch) (syncQuantity : Int) (newId : Nat)
    (hdup : (db.medicines.filter (fun m => m.name == batch.product_name)).length ≤ 1) :
    ∃ meds', handleSyncConfirm db batch syncQuantity newId
          = { db with medicines := meds' }
      ∧ (meds'.filter (fun m => m.name == batch.product_name)).length = 1
      ∧ (db.medicines.filter (fun m => m.name == batch.product_name) = [] →
          meds' = db.medicines
            ++ [{ id := newId, name := batch.product_name,
                  cost := batch.cost_per_unit, quantity := syncQuantity }])
      ∧ ∀ existing,
          db.medicines.filter (fun m => m.name == batch.product_name) = [existing] →
          meds' = db.medicines.map (fun m =>
            if m.id == existing.id then
              { m with quantity := existing.quantity + syncQuantity }
            else m) := by
  cases hfil : db.medicines.filter (fun m => m.name == batch.product_name) with
  | nil =>
    refine ⟨db.medicines
        ++ [{ id := newId, name := batch.product_name,
              cost := batch.cost_per_unit, quantity := syncQuantity }],
      ?_, ?_, fun _ => rfl, ?_⟩
    · unfold handleSyncConfirm
      rw [hfil]
    · rw [List.filter_append, hfil]
      simp
    · intro existing hex
      cases hex
  | cons m0 rest =>
    cases rest with
    | nil =>
      refine ⟨db.medicines.map (fun m =>
          if m.id == m0.id then
            { m with quantity := m0.quantity + syncQuantity }
          else m), ?_, ?_, ?_, ?_⟩
      · unfold handleSyncConfirm
        rw [hfil]
      · rw [filter_length_map_of_preserves db.medicines _ _ (by
          intro m
          by_cases h : m.id == m0.id <;> simp [h]), hfil]
        rfl
      · intro h
        exact absurd h (by simp)
      · intro existing hex
        have : m0 = existing := by
          injection hex
        rw [this]
    | cons m1 rest2 =>
      exfalso
      rw [hfil] at hdup
      simp only [List.length_cons] at hdup
      omega

/-- Witness for C9: syncing 50 units of a name absent from inventory
creates exactly one new row with that name, cost and quantity. -/
theorem sync_creates_or_increments_witness :
    handleSyncConfirm exDB exBatch 50 4 = exDBAfterSync := by
  obtain ⟨meds', heq, _, hnil, _⟩ :=
    sync_creates_or_increments exDB exBatch 50 4 (by decide)
  rw [heq, hnil (by decide)]
  decide

/-- Claim C10: every intake sync — whether it finds no row with the
name, exactly one, or several (the duplicate-name state, where the
tolerated `PGRST116` sends it to the insert branch) — writes only the
`medicines` table: the `products` (intake) rows, including their
quantities, and the sales tables are all left unchanged. -/
theorem sync_only_writes_medicines
    (db : DB) (batch : IntakeBatch) (syncQuantity : Int) (newId : Nat) :
    (handleSyncConfirm db batch syncQuantity newId).products = db.products
      ∧ (handleSyncConfirm db batch syncQuantity newId).sales = db.sales
      ∧ (handleSyncConfirm db batch syncQuantity newId).sale_items = db.sale_items := by
  unfold handleSyncConfirm
  cases db.medicines.filter (fun m => m.name == batch.product_name) with
  | nil => exact ⟨rfl, rfl, rfl⟩
  | cons m0 rest =>
    cases rest with
    | nil => exact ⟨rfl, rfl, rfl⟩
    | cons m1 rest2 => exact ⟨rfl, rfl, rfl⟩

/-- Claim C2 (amended): `completeSale` wraps no transaction. If the sale
insert itself fails nothing is persisted, but if the line-item insert
fails the already-written sale row stays behind: the only state a failed
checkout can leave behind is the appended sale row — medicines,
sale_items and products are never touched by a failed checkout. -/
theorem checkout_failure_frame
    (role : Role) (db : DB) (snapshot : List Medicine) (cart : List CartItem)
    (today : String) (sid cid : Nat) (pm : String) (b : Bool) :
    (completeSale role db snapshot cart today sid cid pm true b).2 = db
      ∧ ∃ ext : List Sale,
          (completeSale role db snapshot cart today sid cid pm false true).2
            = { db with sales := db.sales ++ ext } := by
  constructor
  · unfold completeSale
    by_cases h : cart.isEmpty <;> simp [h]
  · unfold completeSale
    by_cases h : cart.isEmpty
    · exact ⟨[], by simp [h]⟩
    · cases hins : insertSaleRow db.sales today sid cid (calculateTotal cart) pm (some "") with
      | none => exact ⟨[], by simp [h, hins]⟩
      | some p =>
        obtain ⟨sale, sales'⟩ := p
        obtain ⟨_, h2, _⟩ := insertSaleRow_spec _ _ _ _ _ _ _ _ _ hins
        refine ⟨[sale], ?_⟩
        simp only [h, Bool.false_eq_true, if_false, if_true, hins, true_or, if_pos]
        rw [h2]

/-- Counterexample to C2: when the line-item insert of a one-line cart
fails, the checkout reports failure yet the sale row is already
persisted — the pre-checkout state is not restored. -/
theorem checkout_partial_persist_cex :
    (completeSale .admin exDB [exParacetamol] exCartOnce
        "20250101" 1 7 "cash" false true).1 = CheckoutResult.failed
      ∧ (completeSale .admin exDB [exParacetamol] exCartOnce
          "20250101" 1 7 "cash" false true).2.sales ≠ []
      ∧ exDB.sales = [] := by
  decide

/-- Claim C3 (amended): the insufficient-stock check runs when a line is
added to the cart, not at checkout: an addition whose quantity exceeds
the snapshot stock is rejected with the insufficient-stock error
reporting the available quantity, and nothing is persisted (adding to
the cart performs no database write). `completeSale` itself performs no
stock check, so a merged cart line exceeding stock still checks out. -/
theorem addToCart_insufficient_stock_rejected
    (medicines : List Medicine) (cart : List CartItem) (mid : Nat)
    (qty price : Int) (medicine : Medicine)
    (hq : 0 < qty) (hp : 0 < price)
    (hfind : medicines.find? (fun m => m.id == mid) = some medicine)
    (hlt : medicine.quantity < qty) :
    addToCart medicines cart mid qty price
      = .insufficientStock medicine.quantity := by
  simp only [addToCart, hfind]
  rw [if_neg (by omega), if_pos hlt]

/-- Witness for C3: asking 5 units with 3 in stock is rejected with the
available quantity. -/
theorem addToCart_insufficient_stock_rejected_witness :
    addToCart [exParacetamol] [] 1 5 1000 = .insufficientStock 3 :=
  addToCart_insufficient_stock_rejected [exParacetamol] [] 1 5 1000 exParacetamol
    (by decide) (by decide) (by decide) (by decide)

/-- Counterexample to C3: two additions of 2 units each against a stock
of 3 both pass the per-addition check and merge into a line asking 4
units; checkout of that cart is not rejected — it completes, creates the
sale and its line item, and mutates inventory. -/
theorem checkout_skips_stock_check_cex :
    addToCart [exParacetamol] [] 1 2 1000 = .ok exCartOnce
      ∧ addToCart [exParacetamol] exCartOnce 1 2 1000 = .ok exCartMerged
      ∧ (∃ i ∈ exCartMerged, exParacetamol.quantity < i.quantity)
      ∧ (completeSale .admin exDB [exParacetamol] exCartMerged
          "20250101" 1 7 "cash" false false).1
          = CheckoutResult.completed
              { id := 1, sale_number := "SALE-20250101-0001", cashier_id := 7,
                total_amount := 4000, payment_method := "cash", day := "20250101" }
      ∧ (completeSale .admin exDB [exParacetamol] exCartMerged
          "20250101" 1 7 "cash" false false).2.sale_items ≠ []
      ∧ (completeSale .admin exDB [exParacetamol] exCartMerged
          "20250101" 1 7 "cash" false false).2.medicines ≠ exDB.medicines := by
  decide

/-- The sale persisted by the witness checkout of 2 units at 10.00. -/
def exSaleOnce : Sale :=
  { id := 1, sale_number := "SALE-20250101-0001", cashier_id := 7,
    total_amount := 2000, payment_method := "cash", day := "20250101" }

/-- The database after that checkout: stock 3 reduced to 1, one sale and
one line item stored. -/
def exDBAfterOnce : DB :=
  { medicines := [{ id := 1, name := "Paracetamol", cost := 1000, quantity := 1 }],
    sales := [exSaleOnce],
    sale_items := [{ sale_id := 1, medicine_id := 1, medicine_name := "Paracetamol",
                     quantity := 2, unit_price := 1000, total_price := 2000 }],
    products := [] }

/-- Claim C1 (amended): for a completed checkout whose snapshot agrees
with the database on the item, each cart line's medicine ends at its
pre-checkout quantity minus the line quantity, under either role; the
result is nonnegative provided the line quantity did not exceed the
pre-checkout quantity (which the merge path of `addToCart` can violate). -/
theorem checkout_decrements_inventory
    (role : Role) (db : DB) (snapshot : List Medicine) (cart : List CartItem)
    (today : String) (sid cid : Nat) (pm : String)
    (item : CartItem) (q : Int) (sale : Sale) (db' : DB)
    (hmem : item ∈ cart)
    (hnd : (cart.map (fun i => i.medicineId)).Nodup)
    (hq : qtyOf db.medicines item.medicineId = some q)
    (hsnap : snapshot.find? (fun m => m.id == item.medicineId)
              = db.medicines.find? (fun m => m.id == item.medicineId))
    (hres : completeSale role db snapshot cart today sid cid pm false false
              = (.completed sale, db')) :
    qtyOf db'.medicines item.medicineId = some (q - item.quantity)
      ∧ (item.quantity ≤ q → 0 ≤ q - item.quantity) := by
  obtain ⟨_, _, _, _, _, _, _, hadmin, hcashier⟩ :=
    completeSale_completed _ _ _ _ _ _ _ _ _ _ hres
  obtain ⟨m0, hm0, hm0q⟩ :
      ∃ m0, db.medicines.find? (fun m => m.id == item.medicineId) = some m0
        ∧ m0.quantity = q := by
    unfold qtyOf at hq
    cases hfind : db.medicines.find? (fun m => m.id == item.medicineId) with
    | none => rw [hfind] at hq; cases hq
    | some m0 =>
      rw [hfind] at hq
      exact ⟨m0, rfl, by injection hq⟩
  refine ⟨?_, fun h => by omega⟩
  cases role with
  | admin =>
    rw [hadmin rfl]
    rw [adminStockUpdate_qtyOf snapshot db.medicines cart item m0 hnd hmem
      (by rw [hsnap, hm0]), hq, hm0q]
    rfl
  | cashier =>
    rw [hcashier rfl]
    have hnd' : ((saleItemsOfCart sale.id cart).map (fun i => i.medicine_id)).Nodup := by
      rw [saleItemsOfCart, List.map_map]
      exact hnd
    have h2 : qtyOf
        (reduce_stock_on_sale_items db.medicines (saleItemsOfCart sale.id cart))
        item.medicineId
        = (qtyOf db.medicines item.medicineId).map (fun x => x - item.quantity) :=
      reduce_stock_qtyOf db.medicines (saleItemsOfCart sale.id cart)
        (SaleItem.mk sale.id item.medicineId item.medicineName item.quantity
          item.unitPrice item.totalPrice)
        hnd' (List.mem_map_of_mem _ hmem)
    rw [h2, hq]
    rfl

/-- Witness for C1: checking out 2 units with 3 in stock leaves exactly
1 unit, a nonnegative quantity. -/
theorem checkout_decrements_inventory_witness :
    qtyOf exDBAfterOnce.medicines 1 = some (3 - 2)
      ∧ ((2 : Int) ≤ 3 → (0 : Int) ≤ 3 - 2) :=
  checkout_decrements_inventory .admin exDB [exParacetamol] exCartOnce
    "20250101" 1 7 "cash"
    { medicineId := 1, medicineName := "Paracetamol", quantity := 2,
      unitPrice := 1000, totalPrice := 2000 }
    3 exSaleOnce exDBAfterOnce
    (by decide) (by decide) (by decide) (by decide) (by decide)

/-- Counterexample to C1: two stock-checked additions of 2 units merge
into one 4-unit line against a stock of 3; the completed checkout drives
the inventory quantity to -1, which is negative. -/
theorem checkout_oversell_negative_cex :
    addToCart [exParacetamol] [] 1 2 1000 = .ok exCartOnce
      ∧ addToCart [exParacetamol] exCartOnce 1 2 1000 = .ok exCartMerged
      ∧ (completeSale .admin exDB [exParacetamol] exCartMerged
          "20250101" 1 7 "cash" false false).1
          ≠ CheckoutResult.emptyCart
      ∧ (completeSale .admin exDB [exParacetamol] exCartMerged
          "20250101" 1 7 "cash" false false).1
          ≠ CheckoutResult.failed
      ∧ qtyOf (completeSale .admin exDB [exParacetamol] exCartMerged
          "20250101" 1 7 "cash" false false).2.medicines 1 = some (-1)
      ∧ ¬ (0 : Int) ≤ -1 := by
  decide

/-- Claim C6: the total_amount stored with a completed sale equals the
sum of the total_price values of exactly the line items persisted for
that sale (the fresh-id hypothesis says the generated sale id was not
already referenced by an older line item). -/
theorem sale_total_amount_eq_sum_lines
    (role : Role) (db : DB) (snapshot : List Medicine) (cart : List CartItem)
    (today : String) (sid cid : Nat) (pm : String) (sale : Sale) (db' : DB)
    (hfresh : ∀ it ∈ db.sale_items, it.sale_id ≠ sid)
    (hres : completeSale role db snapshot cart today sid cid pm false false
              = (.completed sale, db')) :
    sale.total_amount
      = ((db'.sale_items.filter (fun it => it.sale_id == sale.id)).map
          (fun it => it.total_price)).sum := by
  obtain ⟨hid, htot, _, _, _, hitems, _, _, _⟩ :=
    completeSale_completed _ _ _ _ _ _ _ _ _ _ hres
  rw [hitems, List.filter_append]
  have hold : db.sale_items.filter (fun it => it.sale_id == sale.id) = [] := by
    rw [List.filter_eq_nil_iff]
    intro it hit
    simp only [beq_iff_eq]
    rw [hid]
    exact hfresh it hit
  have hnew : (saleItemsOfCart sale.id cart).filter (fun it => it.sale_id == sale.id)
      = saleItemsOfCart sale.id cart := by
    rw [List.filter_eq_self]
    intro it hit
    obtain ⟨i, _, hi⟩ := List.mem_map.mp hit
    rw [← hi]
    simp
  rw [hold, hnew, List.nil_append, htot, calculateTotal_eq_sum,
    saleItemsOfCart, List.map_map]
  rfl

/-- Witness for C6: the witness checkout stores total 20.00 against one
line item of total_price 20.00. -/
theorem sale_total_amount_eq_sum_lines_witness :
    exSaleOnce.total_amount
      = ((exDBAfterOnce.sale_items.filter (fun it => it.sale_id == exSaleOnce.id)).map
          (fun it => it.total_price)).sum :=
  sale_total_amount_eq_sum_lines .admin exDB [exParacetamol] exCartOnce
    "20250101" 1 7 "cash" exSaleOnce exDBAfterOnce (by decide) (by decide)

/-- Claim C7 (amended): a fresh cart line satisfies
total_price = quantity × unit_price, and a merged addition preserves it
only when the newly entered unit price equals the line's stored unit
price (the merge recomputes total_price with the new price but keeps the
old unit price); checkout persists each cart line verbatim, so every
persisted line item inherits the invariant from its cart line. -/
theorem sale_item_total_price_invariant :
    (∀ (medicines : List Medicine) (cart : List CartItem) (mid : Nat)
        (qty price : Int) (cart' : List CartItem),
        addToCart medicines cart mid qty price = .ok cart' →
        (∀ i ∈ cart, i.totalPrice = i.quantity * i.unitPrice) →
        (∀ i ∈ cart, i.medicineId = mid → i.unitPrice = price) →
        ∀ i ∈ cart', i.totalPrice = i.quantity * i.unitPrice)
    ∧ (∀ (role : Role) (db : DB) (snapshot : List Medicine) (cart : List CartItem)
          (today : String) (sid cid : Nat) (pm : String) (sale : Sale) (db' : DB),
        completeSale role db snapshot cart today sid cid pm false false
            = (.completed sale, db') →
        (∀ i ∈ cart, i.totalPrice = i.quantity * i.unitPrice) →
        db'.sale_items = db.sale_items ++ saleItemsOfCart sale.id cart
          ∧ ∀ it ∈ saleItemsOfCart sale.id cart,
              it.total_price = it.quantity * it.unit_price) := by
  constructor
  · intro medicines cart mid qty price cart' hok hinv hprice
    unfold addToCart at hok
    split at hok
    · cases hok
    · split at hok
      · cases hok
      · split at hok
        · cases hok
        · split at hok
          · injection hok with hcart
            subst hcart
            intro i hi
            obtain ⟨i0, hi0, hbuild⟩ := List.mem_map.mp hi
            by_cases hm : i0.medicineId == mid
            · rw [← hbuild]
              simp only [hm, if_pos]
              have : i0.unitPrice = price := hprice i0 hi0 (by simpa using hm)
              rw [this]
            · rw [← hbuild]
              simp only [hm, Bool.false_eq_true, if_false]
              exact hinv i0 hi0
          · injection hok with hcart
            subst hcart
            intro i hi
            rcases List.mem_append.mp hi with hi | hi
            · exact hinv i hi
            · simp only [List.mem_singleton] at hi
              subst hi
              rfl
  · intro role db snapshot cart today sid cid pm sale db' hres hinv
    obtain ⟨_, _, _, _, _, hitems, _, _, _⟩ :=
      completeSale_completed _ _ _ _ _ _ _ _ _ _ hres
    refine ⟨hitems, ?_⟩
    intro it hit
    obtain ⟨i, hi, hbuild⟩ := List.mem_map.mp hit
    rw [← hbuild]
    exact hinv i hi

/-- Witness for C7: both halves applied to the single-addition cart of
the witness checkout, whose line and persisted item satisfy the
invariant. -/
theorem sale_item_total_price_invariant_witness :
    (∀ i ∈ exCartOnce, i.totalPrice = i.quantity * i.unitPrice)
      ∧ ∀ it ∈ saleItemsOfCart exSaleOnce.id exCartOnce,
          it.total_price = it.quantity * it.unit_price := by
  constructor
  · exact sale_item_total_price_invariant.1 [exParacetamol] [] 1 2 1000 exCartOnce
      (by decide) (by decide) (by decide)
  · exact (sale_item_total_price_invariant.2 .admin exDB [exParacetamol] exCartOnce
      "20250101" 1 7 "cash" exSaleOnce exDBAfterOnce (by decide) (by decide)).2

/-- The cart after adding 1 more unit at the different price 20.00 to
`exCartOnce`: the merged line keeps unit price 10.00 but recomputes the
total with 20.00. -/
def exCartMixedPrice : List CartItem :=
  [{ medicineId := 1, medicineName := "Paracetamol", quantity := 3,
     unitPrice := 1000, totalPrice := 6000 }]

/-- Counterexample to C7: merging a second addition priced 20.00 into a
line priced 10.00 yields a persisted line item with total_price 60.00
but quantity × unit_price = 30.00. -/
theorem merged_line_total_price_cex :
    addToCart [exParacetamol] exCartOnce 1 1 2000 = .ok exCartMixedPrice
      ∧ (completeSale .admin exDB [exParacetamol] exCartMixedPrice
          "20250101" 1 7 "cash" false false).2.sale_items
          = [{ sale_id := 1, medicine_id := 1, medicine_name := "Paracetamol",
               quantity := 3, unit_price := 1000, total_price := 6000 }]
      ∧ ¬ (6000 : Int) = 3 * 1000 := by
  decide

end ChemistMgs
